import Mathlib

/-!
Shallow embedding of the brototype-assist-resolve complaint workflow:
the `complaints` schema, ticket-code trigger and row-level policies from
the SQL migration, the zod submission schema and `handleSubmit` from the
complaint form, the admin `updateComplaint`, and the `analyze-complaint`
edge function's response mapping.
-/

namespace BrototypeAssist

/-- `complaint_priority` enum from the migration: 'Low' | 'Medium' | 'High'. -/
inductive complaint_priority
  | Low
  | Medium
  | High
deriving DecidableEq

/-- `complaint_status` enum from the migration:
'Pending' | 'In Progress' | 'Resolved' | 'Withdrawn'. -/
inductive complaint_status
  | Pending
  | InProgress
  | Resolved
  | Withdrawn
deriving DecidableEq

/-- `app_role` enum from the migration: 'student' | 'admin'. -/
inductive app_role
  | student
  | admin
deriving DecidableEq

/-- A stored row of `public.complaints`.  `id` (uuid) and the
timestamps are modelled as naturals; nullable columns are `Option`.
`ai_priority_score` is the `DECIMAL(3,2)` column: the rationals that
reach it are whole numbers of hundredths, because every insert passes
the supplied score through the scale-2 rounding cast (`pgNumeric32`
in `finishRow`). -/
structure ComplaintRow where
  id : Nat
  complaint_id : String
  student_id : Nat
  title : String
  description : String
  category : Option String
  ai_suggested_category : Option String
  priority : Option complaint_priority
  ai_priority_score : Option ℚ
  status : complaint_status
  admin_response : Option String
  ai_suggested_response : Option String
  created_at : Nat
  updated_at : Nat
deriving DecidableEq

/-- The values a client supplies to `INSERT INTO complaints`.  `none`
means the column is absent from the insert (so the column default
applies); `complaint_id` may also be supplied as an explicit string. -/
structure NewComplaint where
  complaint_id : Option String
  student_id : Nat
  title : String
  description : String
  category : Option String
  ai_suggested_category : Option String
  priority : Option complaint_priority
  ai_priority_score : Option ℚ
  ai_suggested_response : Option String
  status : Option complaint_status
  admin_response : Option String
deriving DecidableEq

/-- `TO_CHAR(NOW(), 'YYYY')`: the calendar year rendered in decimal,
left-padded with zeros to at least four digits. -/
def yearStr (year : Nat) : String :=
  if (Nat.repr year).length < 4 then
    String.mk (List.replicate (4 - (Nat.repr year).length) '0') ++ Nat.repr year
  else Nat.repr year

/-- Postgres `LPAD(s, n, fill)`: extend `s` to length `n` by prepending
`fill`; if `s` is already longer than `n` it is truncated on the right. -/
def lpad (s : String) (n : Nat) (fill : Char) : String :=
  if n ≤ s.length then String.mk (s.data.take n)
  else String.mk (List.replicate (n - s.length) fill) ++ s

/-- `complaint_id LIKE 'CMP-' || year_str || '-%'`: the code starts with
the current-year ticket pattern. -/
def likeCMPYear (year : Nat) (code : String) : Bool :=
  let p := "CMP-" ++ yearStr year ++ "-"
  p.data == code.data.take p.data.length

/-- `SELECT COUNT(*) FROM complaints WHERE complaint_id LIKE 'CMP-' || year_str || '-%'`. -/
def countYearRows (year : Nat) (rows : List ComplaintRow) : Nat :=
  (rows.filter (fun r => likeCMPYear year r.complaint_id)).length

/-- `public.generate_complaint_id()`: count the rows whose code matches
the current year's pattern, add one, and build
`'CMP-' || year_str || '-' || LPAD(count::TEXT, 3, '0')`. -/
def generate_complaint_id (year : Nat) (rows : List ComplaintRow) : String :=
  "CMP-" ++ yearStr year ++ "-" ++ lpad (Nat.repr (countYearRows year rows + 1)) 3 '0'

/-- `public.set_complaint_id()` BEFORE INSERT trigger: if
`NEW.complaint_id IS NULL OR NEW.complaint_id = ''`, replace it with
`generate_complaint_id()`; otherwise keep the supplied code. -/
def set_complaint_id (year : Nat) (rows : List ComplaintRow) (code : Option String) : String :=
  match code with
  | none => generate_complaint_id year rows
  | some c => if c = "" then generate_complaint_id year rows else c

/-- Postgres rounding of a `numeric` value to an integer: round half
away from zero. -/
def pgRound (q : ℚ) : ℤ :=
  if q < 0 then -Int.floor (-q + 1/2) else Int.floor (q + 1/2)

/-- The cast a value receives when stored into the
`ai_priority_score DECIMAL(3,2)` column: Postgres rounds it (half away
from zero) to scale 2, i.e. to a whole number of hundredths.  (Values
of magnitude 10 or more would overflow the declared precision; the
scores this column receives lie in [0,1].) -/
def pgNumeric32 (q : ℚ) : ℚ :=
  (pgRound (q * 100) : ℚ) / 100

/-- Column defaults and casts of `complaints` applied to an insert
payload: `priority DEFAULT 'Medium'`, `status DEFAULT 'Pending'`,
`created_at`/`updated_at DEFAULT now()`, and the `DECIMAL(3,2)`
rounding of `ai_priority_score`. -/
def finishRow (n : NewComplaint) (code : String) (rowId : Nat) (now : Nat) : ComplaintRow :=
  { id := rowId
    complaint_id := code
    student_id := n.student_id
    title := n.title
    description := n.description
    category := n.category
    ai_suggested_category := n.ai_suggested_category
    priority := match n.priority with
      | some p => some p
      | none => some complaint_priority.Medium
    ai_priority_score := match n.ai_priority_score with
      | some q => some (pgNumeric32 q)
      | none => none
    status := n.status.getD complaint_status.Pending
    admin_response := n.admin_response
    ai_suggested_response := n.ai_suggested_response
    created_at := now
    updated_at := now }

/-- The `complaint_id TEXT NOT NULL UNIQUE` constraint: does some stored
row already carry `code`? -/
def hasCode (rows : List ComplaintRow) (code : String) : Bool :=
  rows.any (fun r => r.complaint_id == code)

/-- One `INSERT INTO complaints`: the BEFORE INSERT trigger fixes the
ticket code, then the UNIQUE constraint on `complaint_id` either rejects
the row or appends it. -/
def insertComplaint (year rowId now : Nat) (rows : List ComplaintRow)
    (n : NewComplaint) : Except String (List ComplaintRow) :=
  let code := set_complaint_id year rows n.complaint_id
  if hasCode rows code then
    Except.error "duplicate key value violates unique constraint"
  else
    Except.ok (rows ++ [finishRow n code rowId now])

/-- `public.update_updated_at_column()` BEFORE UPDATE trigger. -/
def update_updated_at_column (now : Nat) (r : ComplaintRow) : ComplaintRow :=
  { r with updated_at := now }

/-- `updateComplaint` from the admin dashboard:
`update({ status, admin_response: response }).eq("id", id)`; the BEFORE
UPDATE trigger stamps `updated_at`. -/
def updateComplaint (rows : List ComplaintRow) (id : Nat)
    (status : complaint_status) (response : String) (now : Nat) : List ComplaintRow :=
  rows.map fun r =>
    if r.id = id then
      update_updated_at_column now { r with status := status, admin_response := some response }
    else r

/-- An authenticated actor: `auth.uid()` plus the rows of `user_roles`
that name them. -/
structure Actor where
  uid : Nat
  roles : List app_role
deriving DecidableEq

/-- `public.has_role(_user_id, _role)`: membership in `user_roles`. -/
def has_role (a : Actor) (role : app_role) : Bool :=
  a.roles.contains role

/-- The combined (permissive) UPDATE policies on `complaints`:
"Students can update their own pending complaints"
(`auth.uid() = student_id AND status = 'Pending'`) OR
"Admins can update all complaints" (`has_role(auth.uid(), 'admin')`). -/
def canUpdateComplaint (a : Actor) (r : ComplaintRow) : Bool :=
  (a.uid == r.student_id && r.status == complaint_status.Pending)
    || has_role a app_role.admin

/- ### The submission form (`ComplaintForm`) -/

/-- The raw field values of the submission form. -/
structure SubmissionInput where
  title : String
  description : String
  category : String
deriving DecidableEq

/-- JavaScript `String.prototype.trim` (used by zod's `.trim()`):
strip leading and trailing whitespace. -/
def trimChars (l : List Char) : List Char :=
  ((l.dropWhile Char.isWhitespace).reverse.dropWhile Char.isWhitespace).reverse

/-- Trim of a string, as zod's `.trim()` transform produces it. -/
def strTrim (s : String) : String :=
  String.mk (trimChars s.data)

/-- Issues raised by `z.string().trim().min(5, ...).max(200, ...)` on
the title, keyed by field path. -/
def titleChecks (t : String) : List (String × String) :=
  (if (strTrim t).length < 5 then [("title", "Title must be at least 5 characters")] else [])
    ++ (if 200 < (strTrim t).length then [("title", "Title too long")] else [])

/-- Issues raised by `z.string().trim().min(20, ...).max(2000, ...)` on
the description. -/
def descriptionChecks (d : String) : List (String × String) :=
  (if (strTrim d).length < 20 then [("description", "Description must be at least 20 characters")] else [])
    ++ (if 2000 < (strTrim d).length then [("description", "Description too long")] else [])

/-- Issues raised by `z.string().min(1, ...)` on the category. -/
def categoryChecks (c : String) : List (String × String) :=
  if c.length < 1 then [("category", "Please select a category")] else []

/-- All issues `complaintSchema.safeParse` reports, in field order. -/
def validationErrors (i : SubmissionInput) : List (String × String) :=
  titleChecks i.title ++ descriptionChecks i.description ++ categoryChecks i.category

/-- The parsed payload on success: title and description are the trimmed
values, the category is passed through. -/
structure ValidatedComplaint where
  title : String
  description : String
  category : String
deriving DecidableEq

/-- `complaintSchema.safeParse`: either the normalized payload or the
full list of field-keyed error messages. -/
def complaintSchema (i : SubmissionInput) :
    Except (List (String × String)) ValidatedComplaint :=
  if validationErrors i = [] then
    Except.ok { title := strTrim i.title, description := strTrim i.description,
                category := i.category }
  else Except.error (validationErrors i)

/-- The fixed category list offered by the form's select control. -/
def categories : List String :=
  ["Infrastructure", "Faculty", "Curriculum", "Administration", "Facilities", "Other"]

/-- The structured result of the `analyze-complaint` function. -/
structure AnalysisResult where
  suggestedCategory : String
  priority : complaint_priority
  priorityScore : ℚ
  suggestedResponse : String
deriving DecidableEq

/-- `handleSubmit` from `ComplaintForm`: validate, call the classifier,
and only on classification success insert the row — with the analysis
fields attached, `complaint_id` sent as `""`, and no explicit status.
Returns the resulting table and whether the submission succeeded.  Any
thrown error is caught and leaves the table untouched. -/
def handleSubmit (year uid rowId now : Nat) (i : SubmissionInput)
    (classifyResult : Except String AnalysisResult)
    (rows : List ComplaintRow) : List ComplaintRow × Bool :=
  match complaintSchema i with
  | Except.error _ => (rows, false)
  | Except.ok v =>
    match classifyResult with
    | Except.error _ => (rows, false)
    | Except.ok a =>
      match insertComplaint year rowId now rows
          { complaint_id := some ""
            student_id := uid
            title := v.title
            description := v.description
            category := some v.category
            ai_suggested_category := some a.suggestedCategory
            priority := some a.priority
            ai_priority_score := some a.priorityScore
            ai_suggested_response := some a.suggestedResponse
            status := none
            admin_response := none } with
      | Except.error _ => (rows, false)
      | Except.ok rows2 => (rows2, true)

/- ### The `analyze-complaint` edge function -/

/-- The request body the edge function reads. -/
structure AnalyzeRequest where
  title : String
  description : String
  category : String
deriving DecidableEq

/-- The function's environment: `Deno.env.get("LOVABLE_API_KEY")`. -/
structure ClassifyEnv where
  apiKey : Option String
deriving DecidableEq

/-- Outcome of the upstream gateway call: a non-2xx HTTP status, or a
2xx body whose first tool call either parses to a structured result or
is absent/malformed (`none`). -/
inductive UpstreamResult
  | httpError (status : Nat)
  | ok (toolCall : Option AnalysisResult)
deriving DecidableEq

/-- What the edge function returns to its caller. -/
inductive HandlerResult
  | success (a : AnalysisResult)
  | failure (status : Nat) (error : String)
deriving DecidableEq

/-- The `serve` handler of `analyze-complaint` on a classification
request: missing key throws (caught as 500); upstream 429 and 402 are
passed through with their specific messages; any other upstream failure,
and an absent/malformed tool call, throw (caught as 500); otherwise the
parsed analysis is returned. -/
def analyzeComplaint (env : ClassifyEnv) (body : AnalyzeRequest)
    (upstream : UpstreamResult) : HandlerResult :=
  match env.apiKey with
  | none => HandlerResult.failure 500 "LOVABLE_API_KEY is not configured"
  | some _ =>
    match upstream with
    | UpstreamResult.httpError s =>
      if s = 429 then
        HandlerResult.failure 429 "Rate limit exceeded. Please try again later."
      else if s = 402 then
        HandlerResult.failure 402 "AI service requires payment. Please contact administrator."
      else
        HandlerResult.failure 500 ("AI Gateway error: " ++ Nat.repr s)
    | UpstreamResult.ok none => HandlerResult.failure 500 "No valid response from AI"
    | UpstreamResult.ok (some a) => HandlerResult.success a

/- ### A two-transaction interleaving model for ticket-code assignment -/

/-- Progress of one submission transaction: it first computes the ticket
code (the read step of the trigger's count-then-concatenate), then
attempts the constrained insert. -/
inductive TxnPhase
  | ready
  | computed (code : String)
  | committed
  | aborted
deriving DecidableEq

/-- One in-flight insert transaction. -/
structure SubmitTxn where
  payload : NewComplaint
  rowId : Nat
  now : Nat
  phase : TxnPhase
deriving DecidableEq

/-- Advance one transaction by one atomic step against the shared table. -/
def txnStep (year : Nat) (rows : List ComplaintRow) (t : SubmitTxn) :
    List ComplaintRow × SubmitTxn :=
  match t.phase with
  | TxnPhase.ready =>
    (rows, { t with phase := TxnPhase.computed (set_complaint_id year rows t.payload.complaint_id) })
  | TxnPhase.computed code =>
    if hasCode rows code then (rows, { t with phase := TxnPhase.aborted })
    else (rows ++ [finishRow t.payload code t.rowId t.now], { t with phase := TxnPhase.committed })
  | TxnPhase.committed => (rows, t)
  | TxnPhase.aborted => (rows, t)

/-- Two concurrent submissions over the shared `complaints` table. -/
structure TwoSubmits where
  rows : List ComplaintRow
  t1 : SubmitTxn
  t2 : SubmitTxn
deriving DecidableEq

/-- Scheduler step: `true` advances the first transaction, `false` the
second. -/
def sysStep (year : Nat) (s : TwoSubmits) (which : Bool) : TwoSubmits :=
  if which then
    { s with rows := (txnStep year s.rows s.t1).1, t1 := (txnStep year s.rows s.t1).2 }
  else
    { s with rows := (txnStep year s.rows s.t2).1, t2 := (txnStep year s.rows s.t2).2 }

/-- Run an arbitrary interleaving of the two transactions. -/
def runSched (year : Nat) (sched : List Bool) (s : TwoSubmits) : TwoSubmits :=
  sched.foldl (sysStep year) s

/-- The `UNIQUE` invariant: no ticket code appears on two stored rows. -/
def codesNodup (rows : List ComplaintRow) : Prop :=
  (rows.map (fun r => r.complaint_id)).Nodup

/-- Projection of the columns an admin update must not touch. -/
def keyFields (r : ComplaintRow) : Nat × String × String × String :=
  (r.student_id, r.title, r.description, r.complaint_id)

/- ### Specification-side definitions -/

/-- Modelled from the spec's wording of the ID algorithm: the sequence
number "zero-padded to three digits" — padded when shorter, never
truncated. -/
def zeroPad3 (n : Nat) : String :=
  if (Nat.repr n).length < 3 then
    String.mk (List.replicate (3 - (Nat.repr n).length) '0') ++ Nat.repr n
  else Nat.repr n

/- ### Concrete test fixtures -/

/-- A stored row carrying a current-year ticket code. -/
def sampleRow : ComplaintRow :=
  { id := 0, complaint_id := "CMP-2025-001", student_id := 3, title := "Sample",
    description := "Sample", category := none, ai_suggested_category := none,
    priority := none, ai_priority_score := none, status := complaint_status.Pending,
    admin_response := none, ai_suggested_response := none, created_at := 0, updated_at := 0 }

/-- A table holding 999 rows that match the 2025 ticket pattern. -/
def rows999 : List ComplaintRow := List.replicate 999 sampleRow

/-- An insert payload that supplies no ticket code (as the form does). -/
def samplePayload (uid : Nat) : NewComplaint :=
  { complaint_id := some "", student_id := uid, title := "Broken projector in Lab 3",
    description := "The projector in Lab 3 stopped working.", category := some "Facilities",
    ai_suggested_category := some "Facilities", priority := some complaint_priority.Medium,
    ai_priority_score := some (7/10), ai_suggested_response := some "We will look into it.",
    status := none, admin_response := none }

/-- The spec's scenario input (description is 25 characters long). -/
def scenarioInput : SubmissionInput :=
  ⟨"Broken projector in Lab 3", "abcdefghijklmnopqrstuvwxy", "Facilities"⟩

/-- The spec's mocked classification result. -/
def scenarioAnalysis : AnalysisResult :=
  { suggestedCategory := "Facilities", priority := complaint_priority.Medium,
    priorityScore := 7/10, suggestedResponse := "We will fix the projector soon." }

/-- A classification result whose confidence score has three decimal
places, exercising the `DECIMAL(3,2)` cast. -/
def analysis777 : AnalysisResult :=
  { suggestedCategory := "Facilities", priority := complaint_priority.High,
    priorityScore := 777/1000, suggestedResponse := "We will fix the projector soon." }

/-- Two fresh submissions racing over an empty table. -/
def raceStart : TwoSubmits :=
  { rows := []
    t1 := { payload := samplePayload 1, rowId := 11, now := 5, phase := TxnPhase.ready }
    t2 := { payload := samplePayload 2, rowId := 12, now := 6, phase := TxnPhase.ready } }

/-- Table after one submission insert into an empty table. -/
def seqRows1 : List ComplaintRow :=
  ((insertComplaint 2025 11 5 [] (samplePayload 1)).toOption).getD []

/-- Table after a second submission insert. -/
def seqRows2 : List ComplaintRow :=
  ((insertComplaint 2025 12 6 seqRows1 (samplePayload 2)).toOption).getD []

/-- An actor holding only the student role. -/
def studentActor : Actor := ⟨3, [app_role.student]⟩

/- ### Helper lemmas -/

set_option maxRecDepth 4000 in
/-- A natural below 1000 prints with at most three digits. -/
theorem repr_length_le_three : ∀ n : Nat, n < 1000 → (Nat.repr n).length ≤ 3 := by
  decide

/-- On numerals of at most 999, Postgres `LPAD(_, 3, '0')` coincides
with zero-padding as the spec words it. -/
theorem lpad_repr_eq_zeroPad3 (n : Nat) (h : n ≤ 999) :
    lpad (Nat.repr n) 3 '0' = zeroPad3 n := by
  have hlen : (Nat.repr n).length ≤ 3 := repr_length_le_three n (by omega)
  by_cases hlt : (Nat.repr n).length < 3
  · rw [lpad, if_neg (by omega), zeroPad3, if_pos hlt]
  · have h3 : (Nat.repr n).data.length = 3 := by
      have : (Nat.repr n).length = (Nat.repr n).data.length := rfl
      omega
    rw [lpad, if_pos (by omega), zeroPad3, if_neg hlt]
    rw [show (3 : Nat) = (Nat.repr n).data.length from h3.symm,
      List.take_length (Nat.repr n).data]

/-- The `UNIQUE` guard is false exactly when the code is absent from the
stored codes. -/
theorem hasCode_eq_false_iff (rows : List ComplaintRow) (code : String) :
    hasCode rows code = false ↔ code ∉ rows.map (fun r => r.complaint_id) := by
  simp [hasCode]

/-- Appending a row whose code passed the `UNIQUE` guard keeps the codes
duplicate-free. -/
theorem codesNodup_append (rows : List ComplaintRow) (r : ComplaintRow)
    (hguard : hasCode rows r.complaint_id = false) (hnd : codesNodup rows) :
    codesNodup (rows ++ [r]) := by
  have := (hasCode_eq_false_iff rows r.complaint_id).mp hguard
  simp [codesNodup, List.nodup_append]
  exact ⟨hnd, fun x hx he => this (he ▸ List.mem_map_of_mem _ hx)⟩

/-- One transaction step never creates a duplicate ticket code. -/
theorem txnStep_preserves_codesNodup (year : Nat) (rows : List ComplaintRow)
    (t : SubmitTxn) (hnd : codesNodup rows) : codesNodup (txnStep year rows t).1 := by
  rcases hph : t.phase with _ | code | _ | _ <;> simp [txnStep, hph]
  · exact hnd
  · rcases hguard : hasCode rows code with _ | _
    · simp
      exact codesNodup_append rows _ hguard hnd
    · simp
      exact hnd
  · exact hnd
  · exact hnd

/-- A scheduler step preserves duplicate-freedom of stored codes. -/
theorem sysStep_preserves_codesNodup (year : Nat) (s : TwoSubmits) (which : Bool)
    (hnd : codesNodup s.rows) : codesNodup (sysStep year s which).rows := by
  rcases which with _ | _ <;>
    simpa [sysStep] using txnStep_preserves_codesNodup year s.rows _ hnd

/-- Characterisation of a successful constrained insert. -/
theorem insertComplaint_ok_iff (year rowId now : Nat) (rows : List ComplaintRow)
    (n : NewComplaint) (rows' : List ComplaintRow) :
    insertComplaint year rowId now rows n = Except.ok rows' ↔
      hasCode rows (set_complaint_id year rows n.complaint_id) = false ∧
        rows' = rows ++ [finishRow n (set_complaint_id year rows n.complaint_id) rowId now] := by
  rw [insertComplaint]
  rcases h : hasCode rows (set_complaint_id year rows n.complaint_id) with _ | _ <;>
    simp [h, eq_comm]

/-- Every generated ticket code matches the current year's `LIKE` pattern. -/
theorem likeCMPYear_of_cmp (year : Nat) (s : String) :
    likeCMPYear year ("CMP-" ++ yearStr year ++ "-" ++ s) = true := by
  have hdata : ("CMP-" ++ yearStr year ++ "-" ++ s).data
      = ("CMP-" ++ yearStr year ++ "-").data ++ s.data := by
    simp
  rw [likeCMPYear, hdata, List.take_left]
  exact beq_self_eq_true _

/-- Counting year-pattern rows across an appended row. -/
theorem countYearRows_append (year : Nat) (rows : List ComplaintRow) (r : ComplaintRow) :
    countYearRows year (rows ++ [r])
      = countYearRows year rows + (if likeCMPYear year r.complaint_id then 1 else 0) := by
  simp [countYearRows, List.filter_append, List.filter_cons]
  split <;> simp

/-- The generated ticket code always begins with `CMP-`, so it is never
the empty string. -/
theorem generate_complaint_id_ne_empty (year : Nat) (rows : List ComplaintRow) :
    generate_complaint_id year rows ≠ "" := by
  intro h
  have hd : (generate_complaint_id year rows).data = "".data := congrArg String.data h
  rw [generate_complaint_id] at hd
  simp at hd

/- ### Claim theorems -/

set_option maxRecDepth 10000 in
/-- Claim C1 counterexample: with 999 stored rows matching the 2025
pattern the trigger assigns `CMP-2025-100` — `LPAD` truncates the
numeral `1000` to three characters — while the claim's formula yields
`CMP-2025-1000`. -/
theorem C1_truncation_counterexample :
    set_complaint_id 2025 rows999 (some "")
      ≠ "CMP-" ++ yearStr 2025 ++ "-" ++ zeroPad3 (countYearRows 2025 rows999 + 1) := by
  decide

/-- Claim C1 (amended: the formula holds whenever the year's row count
plus one is at most 999, i.e. while `LPAD` does not truncate): an insert
supplying no ticket code — `NULL` or the empty string — is assigned
`CMP-<year>-<seq>` with `<seq>` the matching-row count plus one,
zero-padded to three digits. -/
theorem C1_ticket_code_formula (year : Nat) (rows : List ComplaintRow)
    (h : countYearRows year rows + 1 ≤ 999) :
    set_complaint_id year rows none
        = "CMP-" ++ yearStr year ++ "-" ++ zeroPad3 (countYearRows year rows + 1)
      ∧ set_complaint_id year rows (some "")
        = "CMP-" ++ yearStr year ++ "-" ++ zeroPad3 (countYearRows year rows + 1) := by
  constructor
  · show generate_complaint_id year rows = _
    rw [generate_complaint_id, lpad_repr_eq_zeroPad3 _ h]
  · show (if ("" : String) = "" then generate_complaint_id year rows else "") = _
    rw [if_pos rfl, generate_complaint_id, lpad_repr_eq_zeroPad3 _ h]

/-- Witness for C1: on the empty table the assigned code is
`CMP-2025-001`. -/
theorem C1_ticket_code_formula_witness :
    countYearRows 2025 [] + 1 ≤ 999
      ∧ (set_complaint_id 2025 [] none
            = "CMP-" ++ yearStr 2025 ++ "-" ++ zeroPad3 (countYearRows 2025 [] + 1)
          ∧ set_complaint_id 2025 [] (some "")
            = "CMP-" ++ yearStr 2025 ++ "-" ++ zeroPad3 (countYearRows 2025 [] + 1)) :=
  ⟨by decide, C1_ticket_code_formula 2025 [] (by decide)⟩

/-- Claim C3: when the classification call returns an error,
`handleSubmit` performs no insert — the stored table is unchanged and
the submission is reported failed. -/
theorem C3_no_insert_on_classification_error (year uid rowId now : Nat)
    (i : SubmissionInput) (e : String) (rows : List ComplaintRow) :
    handleSubmit year uid rowId now i (Except.error e) rows = (rows, false) := by
  cases hs : complaintSchema i <;> simp [handleSubmit, hs]

/-- Claim C4: by the UPDATE policies, a non-admin student can update a
complaint they own exactly while its status is `Pending`. -/
theorem C4_student_update_iff_pending (a : Actor) (r : ComplaintRow)
    (hadmin : has_role a app_role.admin = false) (hown : a.uid = r.student_id) :
    canUpdateComplaint a r = true ↔ r.status = complaint_status.Pending := by
  simp [canUpdateComplaint, hadmin, hown]

/-- Witness for C4: the sample pending row is updatable by its owner. -/
theorem C4_student_update_iff_pending_witness :
    has_role studentActor app_role.admin = false
      ∧ studentActor.uid = sampleRow.student_id
      ∧ (canUpdateComplaint studentActor sampleRow = true
          ↔ sampleRow.status = complaint_status.Pending) :=
  ⟨by decide, by decide,
    C4_student_update_iff_pending studentActor sampleRow (by decide) (by decide)⟩

/-- Claim C5: the admin `updateComplaint` write changes only status,
admin response and the update timestamp — `student_id`, `title`,
`description` and `complaint_id` of every row are unchanged. -/
theorem C5_admin_update_preserves_key_fields (rows : List ComplaintRow) (id : Nat)
    (status : complaint_status) (response : String) (now : Nat) :
    (updateComplaint rows id status response now).map keyFields = rows.map keyFields := by
  induction rows with
  | nil => rfl
  | cons r rest ih =>
    simp only [updateComplaint, List.map_cons] at ih ⊢
    congr 1
    split <;> rfl

/-- Claim C2: stored ticket codes never repeat — under every
interleaving of two concurrent creations the `UNIQUE`-checked insert
keeps the stored codes pairwise distinct — and two successive
creations without a supplied code in the same year receive the
consecutive sequence numbers `count+1` and `count+2`, and those two
codes differ. -/
theorem C2_codes_distinct_and_sequential :
    (∀ (year : Nat) (sched : List Bool) (s : TwoSubmits),
        codesNodup s.rows → codesNodup (runSched year sched s).rows)
    ∧ (∀ (year rowId1 now1 rowId2 now2 : Nat) (rows rows1 rows2 : List ComplaintRow)
        (n1 n2 : NewComplaint),
        n1.complaint_id = some "" → n2.complaint_id = some "" →
        insertComplaint year rowId1 now1 rows n1 = Except.ok rows1 →
        insertComplaint year rowId2 now2 rows1 n2 = Except.ok rows2 →
        ∃ r1 r2, rows1 = rows ++ [r1] ∧ rows2 = rows1 ++ [r2]
          ∧ r1.complaint_id
              = "CMP-" ++ yearStr year ++ "-"
                  ++ lpad (Nat.repr (countYearRows year rows + 1)) 3 '0'
          ∧ r2.complaint_id
              = "CMP-" ++ yearStr year ++ "-"
                  ++ lpad (Nat.repr (countYearRows year rows + 2)) 3 '0'
          ∧ r1.complaint_id ≠ r2.complaint_id) := by
  constructor
  · intro year sched
    induction sched with
    | nil => exact fun s h => h
    | cons w ws ih =>
      intro s hnd
      exact ih (sysStep year s w) (sysStep_preserves_codesNodup year s w hnd)
  · intro year rowId1 now1 rowId2 now2 rows rows1 rows2 n1 n2 hn1 hn2 h1 h2
    obtain ⟨hg1, he1⟩ := (insertComplaint_ok_iff year rowId1 now1 rows n1 rows1).mp h1
    obtain ⟨hg2, he2⟩ := (insertComplaint_ok_iff year rowId2 now2 rows1 n2 rows2).mp h2
    rw [hn1] at hg1 he1
    rw [hn2] at hg2 he2
    simp [set_complaint_id] at hg1 he1 hg2 he2
    have hlike : likeCMPYear year
        (finishRow n1 (generate_complaint_id year rows) rowId1 now1).complaint_id = true := by
      show likeCMPYear year (generate_complaint_id year rows) = true
      rw [generate_complaint_id]
      exact likeCMPYear_of_cmp year _
    have hcount : countYearRows year rows1 = countYearRows year rows + 1 := by
      rw [he1, countYearRows_append, hlike]
      rfl
    refine ⟨finishRow n1 (generate_complaint_id year rows) rowId1 now1,
      finishRow n2 (generate_complaint_id year rows1) rowId2 now2, he1, he2, rfl, ?_, ?_⟩
    · show generate_complaint_id year rows1 = _
      rw [generate_complaint_id, hcount]
    · intro heq
      have hmem : (finishRow n1 (generate_complaint_id year rows) rowId1 now1).complaint_id
          ∈ rows1.map (fun r => r.complaint_id) := by
        rw [he1]
        simp
      rw [heq] at hmem
      exact (hasCode_eq_false_iff rows1 _).mp hg2 hmem

/-- Witness for C2: a four-step interleaving over the empty table keeps
codes duplicate-free, and two successful sequential inserts get the
codes `CMP-2025-001` and `CMP-2025-002`. -/
theorem C2_codes_distinct_and_sequential_witness :
    (codesNodup raceStart.rows
      ∧ codesNodup (runSched 2025 [true, false, true, false] raceStart).rows)
    ∧ (∃ r1 r2, seqRows1 = [] ++ [r1] ∧ seqRows2 = seqRows1 ++ [r2]
        ∧ r1.complaint_id
            = "CMP-" ++ yearStr 2025 ++ "-"
                ++ lpad (Nat.repr (countYearRows 2025 [] + 1)) 3 '0'
        ∧ r2.complaint_id
            = "CMP-" ++ yearStr 2025 ++ "-"
                ++ lpad (Nat.repr (countYearRows 2025 [] + 2)) 3 '0'
        ∧ r1.complaint_id ≠ r2.complaint_id) :=
  ⟨⟨by unfold codesNodup; decide,
    C2_codes_distinct_and_sequential.1 2025 [true, false, true, false] raceStart
      (by unfold codesNodup; decide)⟩,
    C2_codes_distinct_and_sequential.2 2025 11 5 12 6 [] seqRows1 seqRows2
      (samplePayload 1) (samplePayload 2) rfl rfl rfl rfl⟩

/-- Claim C6 counterexample: the raw title `"  ab "` (5 characters,
inside [5,200]) and the raw description `"  abcdefghijklmnopq  "`
(21 characters, inside [20,2000]) are both rejected, because zod trims
each field before checking its length. -/
theorem C6_raw_bounds_counterexample :
    (5 ≤ ("  ab " : String).length ∧ ("  ab " : String).length ≤ 200
      ∧ ("title", "Title must be at least 5 characters")
          ∈ validationErrors ⟨"  ab ", "abcdefghijklmnopqrstuvwxy", "Facilities"⟩)
    ∧ (20 ≤ ("  abcdefghijklmnopq  " : String).length
      ∧ ("  abcdefghijklmnopq  " : String).length ≤ 2000
      ∧ ("description", "Description must be at least 20 characters")
          ∈ validationErrors ⟨"Valid title here", "  abcdefghijklmnopq  ", "Facilities"⟩) := by
  decide

/-- Claim C6 (amended: the [5,200] and [20,2000] bounds apply to the
*trimmed* title and description — zod's `.trim()` runs before the
length checks): each bound violation yields exactly its field-specific
message, and trimmed values inside the bounds raise no such error. -/
theorem C6_validator_bounds (i : SubmissionInput) :
    (("title", "Title must be at least 5 characters") ∈ validationErrors i
        ↔ (strTrim i.title).length < 5)
    ∧ (("title", "Title too long") ∈ validationErrors i
        ↔ 200 < (strTrim i.title).length)
    ∧ (("description", "Description must be at least 20 characters") ∈ validationErrors i
        ↔ (strTrim i.description).length < 20)
    ∧ (("description", "Description too long") ∈ validationErrors i
        ↔ 2000 < (strTrim i.description).length) := by
  unfold validationErrors titleChecks descriptionChecks categoryChecks
  refine ⟨?_, ?_, ?_, ?_⟩ <;> (split_ifs <;> simp_all)

/-- Claim C7 counterexample: the category `"Nonsense"` is not one of the
six fixed values, yet the validator accepts the submission — the schema
only requires a non-empty category string. -/
theorem C7_nonmember_category_accepted :
    ("Nonsense" ∉ categories)
      ∧ complaintSchema ⟨"Valid complaint title", "abcdefghijklmnopqrstuvwxy", "Nonsense"⟩
          = Except.ok ⟨"Valid complaint title", "abcdefghijklmnopqrstuvwxy", "Nonsense"⟩ := by
  constructor
  · decide
  · rfl

/-- Claim C7 (amended: the validator rejects exactly the empty category;
any non-empty category string — including ones outside the six fixed
values, which only the form's select control restricts — passes). -/
theorem C7_category_rejects_only_empty (i : SubmissionInput) :
    (∃ m, ("category", m) ∈ validationErrors i) ↔ i.category = "" := by
  have hempty : ∀ s : String, s.length = 0 ↔ s = "" := by
    intro s
    constructor
    · intro h
      obtain ⟨l⟩ := s
      rw [List.length_eq_zero.mp h]
    · intro h
      rw [h]
      rfl
  unfold validationErrors titleChecks descriptionChecks categoryChecks
  split_ifs <;>
    simp_all [Nat.lt_one_iff, hempty]

/-- Claim C8: the classification endpoint returns either the structured
analysis or an error object whose status is 429, 402 or 500; rate limit
maps to 429, billing to 402, and a missing credential or an
absent/malformed structured result to 500. -/
theorem C8_classification_error_contract (env : ClassifyEnv) (body : AnalyzeRequest)
    (upstream : UpstreamResult) :
    ((∃ a, analyzeComplaint env body upstream = HandlerResult.success a)
      ∨ (∃ s m, analyzeComplaint env body upstream = HandlerResult.failure s m
          ∧ (s = 429 ∨ s = 402 ∨ s = 500)))
    ∧ (env.apiKey = none →
        analyzeComplaint env body upstream
          = HandlerResult.failure 500 "LOVABLE_API_KEY is not configured")
    ∧ (∀ k, env.apiKey = some k →
        (upstream = UpstreamResult.httpError 429 →
          analyzeComplaint env body upstream
            = HandlerResult.failure 429 "Rate limit exceeded. Please try again later.")
        ∧ (upstream = UpstreamResult.httpError 402 →
          analyzeComplaint env body upstream
            = HandlerResult.failure 402 "AI service requires payment. Please contact administrator.")
        ∧ (upstream = UpstreamResult.ok none →
          analyzeComplaint env body upstream
            = HandlerResult.failure 500 "No valid response from AI")
        ∧ (∀ a, upstream = UpstreamResult.ok (some a) →
          analyzeComplaint env body upstream = HandlerResult.success a)) := by
  rcases env with ⟨_ | k⟩
  · exact ⟨Or.inr ⟨500, _, rfl, Or.inr (Or.inr rfl)⟩, fun _ => rfl,
      fun k hk => nomatch hk⟩
  · refine ⟨?_, fun h => Option.noConfusion h, fun k' hk' => ?_⟩
    · rcases upstream with s | (_ | a)
      · by_cases h429 : s = 429
        · subst h429
          exact Or.inr ⟨429, _, rfl, Or.inl rfl⟩
        · by_cases h402 : s = 402
          · subst h402
            exact Or.inr ⟨402, _, rfl, Or.inr (Or.inl rfl)⟩
          · exact Or.inr ⟨500, "AI Gateway error: " ++ Nat.repr s,
              by simp [analyzeComplaint, h429, h402], Or.inr (Or.inr rfl)⟩
      · exact Or.inr ⟨500, _, rfl, Or.inr (Or.inr rfl)⟩
      · exact Or.inl ⟨a, rfl⟩
    · refine ⟨fun h => ?_, fun h => ?_, fun h => ?_, fun a h => ?_⟩ <;> subst h <;> rfl

/-- Witness for C8: with no credential configured the endpoint answers
500, and with a credential a 429 from the gateway is passed through. -/
theorem C8_classification_error_contract_witness :
    analyzeComplaint ⟨none⟩ ⟨"t", "d", "c"⟩ (UpstreamResult.ok none)
        = HandlerResult.failure 500 "LOVABLE_API_KEY is not configured"
      ∧ analyzeComplaint ⟨some "key"⟩ ⟨"t", "d", "c"⟩ (UpstreamResult.httpError 429)
        = HandlerResult.failure 429 "Rate limit exceeded. Please try again later." :=
  ⟨(C8_classification_error_contract ⟨none⟩ ⟨"t", "d", "c"⟩ (UpstreamResult.ok none)).2.1 rfl,
    ((C8_classification_error_contract ⟨some "key"⟩ ⟨"t", "d", "c"⟩
        (UpstreamResult.httpError 429)).2.2 "key" rfl).1 rfl⟩

/-- Claim C9 counterexample: a successful submission whose
classification returns the score 0.777 stores 0.78 — the `DECIMAL(3,2)`
column rounds to two decimal places, so the stored score is not the
returned score. -/
theorem C9_decimal_rounding_counterexample :
    (handleSubmit 2025 7 1 0 scenarioInput (Except.ok analysis777) []).2 = true
    ∧ ((handleSubmit 2025 7 1 0 scenarioInput (Except.ok analysis777) []).1.map
        (fun r => r.ai_priority_score))
      = [some (pgNumeric32 analysis777.priorityScore)]
    ∧ analysis777.priorityScore = 777/1000
    ∧ pgNumeric32 analysis777.priorityScore = 39/50
    ∧ pgNumeric32 analysis777.priorityScore ≠ analysis777.priorityScore := by
  have hps : analysis777.priorityScore = (777 : ℚ)/1000 := rfl
  have h78 : Int.floor ((777 : ℚ)/1000 * 100 + 1/2) = 78 := by
    rw [Int.floor_eq_iff]
    norm_num
  have h3950 : pgNumeric32 ((777 : ℚ)/1000) = 39/50 := by
    rw [pgNumeric32, pgRound, if_neg (by norm_num), h78]
    norm_num
  refine ⟨by decide, rfl, hps, ?_, ?_⟩
  · rw [hps]
    exact h3950
  · intro h
    rw [hps, h3950] at h
    norm_num at h

/-- Claim C9 (amended: the stored `ai_priority_score` is the returned
score rounded half away from zero to two decimal places, the
`DECIMAL(3,2)` cast — so equal to the returned score exactly when that
score already has at most two decimal places): a successful submission
appends exactly one row carrying the suggested category, priority and
suggested response unchanged, the rounded score, and the default status
`Pending`. -/
theorem C9_insert_carries_analysis_rounded (year uid rowId now : Nat)
    (i : SubmissionInput) (a : AnalysisResult) (rows rows2 : List ComplaintRow)
    (h : handleSubmit year uid rowId now i (Except.ok a) rows = (rows2, true)) :
    ∃ r, rows2 = rows ++ [r]
      ∧ r.priority = some a.priority
      ∧ r.ai_priority_score = some (pgNumeric32 a.priorityScore)
      ∧ (pgNumeric32 a.priorityScore = a.priorityScore →
          r.ai_priority_score = some a.priorityScore)
      ∧ r.ai_suggested_category = some a.suggestedCategory
      ∧ r.ai_suggested_response = some a.suggestedResponse
      ∧ r.status = complaint_status.Pending
      ∧ r.student_id = uid := by
  rw [handleSubmit] at h
  split at h
  · exact absurd (congrArg Prod.snd h) (by simp)
  · split at h
    · exact absurd (congrArg Prod.snd h) (by simp)
    · rename_i a2 heq
      cases heq
      split at h
      · exact absurd (congrArg Prod.snd h) (by simp)
      · rename_i rows' hins
        obtain ⟨hguard, hrows⟩ := (insertComplaint_ok_iff _ _ _ _ _ _).mp hins
        have h2 : rows2 = rows' := (congrArg Prod.fst h).symm
        exact ⟨_, h2.trans hrows, rfl, rfl, fun hq => congrArg Option.some hq,
          rfl, rfl, rfl, rfl⟩

/-- Witness for C9: the spec's scenario submission (score 0.7, already
at scale 2, so preserved exactly) stores the analysis with status
`Pending`. -/
theorem C9_insert_carries_analysis_rounded_witness :
    pgNumeric32 scenarioAnalysis.priorityScore = scenarioAnalysis.priorityScore
    ∧ ∃ r, (handleSubmit 2025 7 1 0 scenarioInput (Except.ok scenarioAnalysis) []).1
        = [] ++ [r]
      ∧ r.priority = some scenarioAnalysis.priority
      ∧ r.ai_priority_score = some (pgNumeric32 scenarioAnalysis.priorityScore)
      ∧ (pgNumeric32 scenarioAnalysis.priorityScore = scenarioAnalysis.priorityScore →
          r.ai_priority_score = some scenarioAnalysis.priorityScore)
      ∧ r.ai_suggested_category = some scenarioAnalysis.suggestedCategory
      ∧ r.ai_suggested_response = some scenarioAnalysis.suggestedResponse
      ∧ r.status = complaint_status.Pending
      ∧ r.student_id = 7 :=
  ⟨by
    have h70 : Int.floor ((7 : ℚ)/10 * 100 + 1/2) = 70 := by
      rw [Int.floor_eq_iff]
      norm_num
    show pgNumeric32 ((7 : ℚ)/10) = (7 : ℚ)/10
    rw [pgNumeric32, pgRound, if_neg (by norm_num), h70]
    norm_num,
   C9_insert_carries_analysis_rounded 2025 7 1 0 scenarioInput scenarioAnalysis []
    (handleSubmit 2025 7 1 0 scenarioInput (Except.ok scenarioAnalysis) []).1 rfl⟩

/-- Claim C10: the trigger treats `NULL` and `''` alike, and every row
the submission form creates carries the server-generated, non-empty
ticket code — the form always sends `''`, so the client cannot choose
the stored code. -/
theorem C10_server_generated_code :
    (∀ (year : Nat) (rows : List ComplaintRow),
        set_complaint_id year rows none = generate_complaint_id year rows
          ∧ set_complaint_id year rows (some "") = generate_complaint_id year rows)
    ∧ (∀ (year uid rowId now : Nat) (i : SubmissionInput)
        (res : Except String AnalysisResult) (rows rows2 : List ComplaintRow),
        handleSubmit year uid rowId now i res rows = (rows2, true) →
        ∃ r, rows2 = rows ++ [r]
          ∧ r.complaint_id = generate_complaint_id year rows
          ∧ r.complaint_id ≠ "") := by
  constructor
  · exact fun year rows => ⟨rfl, rfl⟩
  · intro year uid rowId now i res rows rows2 h
    rw [handleSubmit] at h
    split at h
    · exact absurd (congrArg Prod.snd h) (by simp)
    · split at h
      · exact absurd (congrArg Prod.snd h) (by simp)
      · split at h
        · exact absurd (congrArg Prod.snd h) (by simp)
        · rename_i rows' hins
          obtain ⟨hguard, hrows⟩ := (insertComplaint_ok_iff _ _ _ _ _ _).mp hins
          have h2 : rows2 = rows' := (congrArg Prod.fst h).symm
          refine ⟨_, h2.trans hrows, rfl, ?_⟩
          show set_complaint_id year rows (some "") ≠ ""
          exact generate_complaint_id_ne_empty year rows

/-- Witness for C10: the scenario submission's stored row carries the
generated code `CMP-2025-001`, which is non-empty. -/
theorem C10_server_generated_code_witness :
    ∃ r, (handleSubmit 2025 7 1 0 scenarioInput (Except.ok scenarioAnalysis) []).1
        = [] ++ [r]
      ∧ r.complaint_id = generate_complaint_id 2025 []
      ∧ r.complaint_id ≠ "" :=
  C10_server_generated_code.2 2025 7 1 0 scenarioInput (Except.ok scenarioAnalysis) []
    (handleSubmit 2025 7 1 0 scenarioInput (Except.ok scenarioAnalysis) []).1 rfl

end BrototypeAssist
